/-
Verification of the hebcal-mcp transport and tool layer.

This file gives a shallow embedding, in Lean 4, of the parts of the
hebcal-mcp repository that the checked properties concern:

* `src/src/app.ts` : `isoDateStringToDate`, `doYahrzeit`, the `yahrzeit`
  tool handler (JavaScript `Date` arithmetic is modelled exactly, via
  days-from-civil / civil-from-days arithmetic on the proleptic
  Gregorian calendar, which is what ECMAScript `new Date(y, m, d)`
  computes for the year/month/day components).
* `src/src/server.ts` (both revisions present in the repository) : the
  stateless `POST /mcp` handler, its catch block, and the GET/DELETE
  method gate.
* `src/sse-transport.ts` (the `SseServerTransport` class) : the
  constructor's session-id assignment and `req.on("close")` listener,
  `send`, and `close`.
* `src/src/index.ts` : the SSE keep-alive heartbeat wiring.

External collaborators (the @hebcal calendar library, the MCP SDK's
message engine, JSON serialization) are abstracted as parameters, and
event-loop scheduling is modelled by explicit event lists; everything
that the repository's own code decides is translated statement by
statement from the source.
-/
import Mathlib

set_option linter.unusedVariables false

/-! ## JavaScript `Date` model

`new Date(y, m, d)` in ECMAScript normalizes its arguments by plain
day arithmetic on the proleptic Gregorian calendar (month 13 rolls
into January of the next year, day 0 rolls into the last day of the
previous month).  We model a date as a normalized civil triple and
implement the standard days-from-civil / civil-from-days conversion
with floored integer division. -/

/-- A civil (proleptic Gregorian) calendar date.  `month` is 0-based
(0 = January), matching the ECMAScript `Date` month index. -/
structure Civil where
  year : Int
  month : Int
  day : Int
deriving DecidableEq, Repr

/-- Day number (days since 1970-01-01) of the civil date `(y, m, d)`
where `m` is the 1-based month, assumed in `1..12`; `d` enters
linearly, so out-of-range days roll over exactly as in ECMAScript. -/
def daysFromCivilYMD (y m d : Int) : Int :=
  let y2 := if m ≤ 2 then y - 1 else y
  let era := y2.fdiv 400
  let yoe := y2 - era * 400
  let mp := if 2 < m then m - 3 else m + 9
  let doy := (153 * mp + 2).fdiv 5 + d - 1
  let doe := yoe * 365 + yoe.fdiv 4 - yoe.fdiv 100 + doy
  era * 146097 + doe - 719468

/-- The normalized civil date of a day number (inverse of
`daysFromCivilYMD` on normalized dates). -/
def civilFromDays (z0 : Int) : Civil :=
  let z := z0 + 719468
  let era := z.fdiv 146097
  let doe := z - era * 146097
  let yoe := (doe - doe.fdiv 1460 + doe.fdiv 36524 - doe.fdiv 146096).fdiv 365
  let y := yoe + era * 400
  let doy := doe - (365 * yoe + yoe.fdiv 4 - yoe.fdiv 100)
  let mp := (5 * doy + 2).fdiv 153
  let d := doy - (153 * mp + 2).fdiv 5 + 1
  let m := if mp < 10 then mp + 3 else mp - 9
  ⟨if m ≤ 2 then y + 1 else y, m - 1, d⟩

/-- `new Date(y, m, d)` where `m` is the 0-based month index: years
`0..99` are interpreted as `1900..1999` (ECMAScript two-digit-year
rule), then the month is normalized by floored division and the day
rolls over by plain day arithmetic. -/
def jsDateNew (y m d : Int) : Civil :=
  let yAdj := if 0 ≤ y ∧ y ≤ 99 then y + 1900 else y
  let yN := yAdj + m.fdiv 12
  let m0 := m.emod 12
  civilFromDays (daysFromCivilYMD yN (m0 + 1) d)

/-- `dt.setFullYear(y)`: keeps the month and day-of-month fields and
re-normalizes (no two-digit-year adjustment). -/
def jsSetFullYear (c : Civil) (y : Int) : Civil :=
  civilFromDays (daysFromCivilYMD y (c.month + 1) c.day)

/-! ## `isoDateStringToDate` (src/src/app.ts lines 24-36)

The source tests the string against the regex `/^\d\d\d\d-\d\d-\d\d/`
(anchored only at the start), throws a `RangeError` when the test
fails, and otherwise computes `parseInt(str, 10)`,
`parseInt(str.substring(5, 7), 10)`, `parseInt(str.substring(8, 10), 10)`
and builds `new Date(yy, mm - 1, dd)`, patching the full year when
`yy < 100`.  Throwing is modelled as `Except.error` carrying the
source's message. -/

/-- The test `/^\d\d\d\d-\d\d-\d\d/.test(str)`: the first ten
characters are four digits, a dash, two digits, a dash, two digits. -/
def isoRegexTest : List Char → Bool
  | c0 :: c1 :: c2 :: c3 :: c4 :: c5 :: c6 :: c7 :: c8 :: c9 :: _ =>
    c0.isDigit && c1.isDigit && c2.isDigit && c3.isDigit && (c4 == '-') &&
    c5.isDigit && c6.isDigit && (c7 == '-') && c8.isDigit && c9.isDigit
  | _ => false

/-- The maximal leading run of decimal digits of a character list. -/
def leadingDigits : List Char → List Char
  | [] => []
  | c :: rest => if c.isDigit then c :: leadingDigits rest else []

/-- Decimal value of a digit list. -/
def digitsVal (l : List Char) : Int :=
  l.foldl (fun acc c => acc * 10 + ((c.toNat : Int) - ('0'.toNat : Int))) 0

/-- `parseInt(str, 10)`: the value of the maximal leading digit run.
(The NaN case, no leading digit, is unreachable at every call site in
the source because the regex test has already succeeded; it is
modelled as 0.) -/
def jsParseInt (l : List Char) : Int := digitsVal (leadingDigits l)

/-- `isoDateStringToDate` from src/src/app.ts lines 24-36 (identical
in src/unnamed/part_003 lines 25-37).  `Except.error` models the
thrown `RangeError` with the source's message. -/
def isoDateStringToDate (str : String) : Except String Civil :=
  if isoRegexTest str.data then
    let yy := jsParseInt str.data
    let mm := jsParseInt ((str.data.drop 5).take 2)
    let dd := jsParseInt ((str.data.drop 8).take 2)
    let dt := jsDateNew yy (mm - 1) dd
    .ok (if yy < 100 then jsSetFullYear dt yy else dt)
  else
    .error ("Date does not match format YYYY-MM-DD: " ++ str)

/-- Whether an `Except` result is a success (no throw). -/
def exceptOk : Except String Civil → Bool
  | .ok _ => true
  | .error _ => false

/-! ## JSON-RPC envelopes and the method gate

`src/src/server.ts` contains two revisions of the Express server
(separated in the packed source).  Both register handlers on `/mcp`
for POST, GET and DELETE only; any other verb falls through to
Express's default 404 handling.  The first revision's GET and DELETE
handlers reply with the fixed message "Method not allowed." (lines
57-79, also src/unnamed/part_000 lines 53-75); the second revision
routes both through `notAllowed` (lines 140-153), whose message
interpolates `req.method`. -/

/-- The JSON-RPC error envelope written by the 405 and 500 handlers:
`{jsonrpc, error: {code, message}, id}`. -/
structure ErrorEnvelope where
  jsonrpc : String
  code : Int
  message : String
  id : Option Nat
deriving DecidableEq, Repr

/-- An HTTP status plus a JSON-RPC error envelope body. -/
structure HttpReply where
  status : Nat
  body : ErrorEnvelope
deriving DecidableEq, Repr

/-- `notAllowed` from the second revision of server.ts (lines 140-150):
`res.writeHead(405).end(...)` with the verb interpolated into the
message. -/
def notAllowed (method : String) : HttpReply :=
  ⟨405, ⟨"2.0", -32000, "Method " ++ method ++ " not allowed", none⟩⟩

/-- The GET and DELETE handlers of the first revision of server.ts
(lines 57-79) and of src/unnamed/part_000 (lines 53-75): the same 405
envelope but with the fixed message "Method not allowed.". -/
def notAllowedGeneric : HttpReply :=
  ⟨405, ⟨"2.0", -32000, "Method not allowed.", none⟩⟩

/-- HTTP verbs relevant to the /mcp endpoint. -/
inductive Verb
  | post
  | get
  | delete
  | put
  | patch
deriving DecidableEq, Repr

/-- What the Express router does with a verb on /mcp. -/
inductive RouteResult
  | mcpPost
  | reply (r : HttpReply)
  | unhandled
deriving DecidableEq, Repr

/-- Verb routing of /mcp in the second revision of server.ts:
`app.post` runs the MCP exchange, `app.get`/`app.delete` run
`notAllowed`, and no other verb has a registered handler
(`unhandled` = Express's default 404 fallthrough). -/
def mcpRouteV2 : Verb → RouteResult
  | .post => .mcpPost
  | .get => .reply (notAllowed "GET")
  | .delete => .reply (notAllowed "DELETE")
  | _ => .unhandled

/-- Verb routing of /mcp in the first revision of server.ts (and in
src/unnamed/part_000): GET and DELETE each get the generic envelope. -/
def mcpRouteV1 : Verb → RouteResult
  | .post => .mcpPost
  | .get => .reply notAllowedGeneric
  | .delete => .reply notAllowedGeneric
  | _ => .unhandled

/-- The catch block of the POST /mcp handler (server.ts lines 42-54):
when `res.headersSent` is false, reply `500` with the `-32603`
envelope and `id: null`; when headers were already sent, write nothing
(the error is only logged). -/
def postCatchResponse (headersSent : Bool) : Option HttpReply :=
  if headersSent then none
  else some ⟨500, ⟨"2.0", -32603, "Internal server error", none⟩⟩

/-! ## The stateless POST /mcp exchange (server.ts lines 27-55)

A JSON-RPC message and the per-exchange state machine.  Each POST
request runs this pipeline on its own fresh transport (the handler
constructs a new `StreamableHTTPServerTransport` per request); the
only shared object, the Message Engine (the MCP server and its
capability set), is read-only, modelled as a pure function.  The
response-id discipline of the engine (a JSON-RPC response echoes its
request's id) is external to the repository and enters as a
hypothesis. -/

/-- A JSON-RPC request: an optional id (absent for notifications) and
an abstracted payload. -/
structure JMessage where
  id : Option Nat
  payload : Nat
deriving DecidableEq, Repr

/-- A JSON-RPC response: the id it answers and an abstracted result. -/
structure JResponse where
  id : Option Nat
  result : Nat
deriving DecidableEq, Repr

/-- Progress of one POST /mcp exchange through the handler's awaits:
construction of the fresh transport, `server.connect(transport)`,
`transport.handleRequest(req, res, req.body)`, and the trailing log. -/
inductive ExPhase
  | start
  | connected
  | handled
  | done
deriving DecidableEq, Repr

/-- Per-exchange state: the request (owned by this exchange), the
phase, and the response written so far.  No field is shared with any
other exchange — the transport and response handle are fresh per
request (server.ts lines 33-35). -/
structure ExchangeState where
  req : JMessage
  phase : ExPhase
  out : Option JResponse
deriving DecidableEq, Repr

/-- The state of a freshly arrived POST exchange. -/
def initEx (r : JMessage) : ExchangeState := ⟨r, .start, none⟩

/-- One scheduler step of a single exchange: advance to the next
await point; the `handleRequest` step writes the engine's response
for this exchange's own request. -/
def exStep (engine : JMessage → JResponse) (s : ExchangeState) : ExchangeState :=
  match s.phase with
  | .start => { s with phase := .connected }
  | .connected => { s with phase := .handled, out := some (engine s.req) }
  | .handled => { s with phase := .done }
  | .done => s

/-- An exchange run alone for `n` scheduler steps. -/
def runAlone (engine : JMessage → JResponse) (n : Nat) (r : JMessage) : ExchangeState :=
  (exStep engine)^[n] (initEx r)

/-- Two concurrently in-flight exchanges interleaved by a schedule:
`true` steps the first exchange, `false` the second.  Each step reads
and writes only its own exchange's state plus the shared read-only
engine, mirroring the absence of shared per-exchange mutable state in
the handler. -/
def runPair (engine : JMessage → JResponse) :
    List Bool → ExchangeState × ExchangeState → ExchangeState × ExchangeState
  | [], p => p
  | b :: rest, p =>
    runPair engine rest (if b then (exStep engine p.1, p.2) else (p.1, exStep engine p.2))

/-- The terminal HTTP outcome of one stateless POST exchange. -/
inductive PostOutcome
  | okFrame (r : JResponse)
  | accepted
  | errorReply (r : HttpReply)
deriving DecidableEq, Repr

/-- Modelled from the spec: `StreamableHTTPServerTransport.handleRequest`
is MCP-SDK code, absent from this repository's sources; sections 4.2
and 6 of the specification fix its stateless-POST behaviour, which the
repository's own test (src/test/server.test.ts, "requests without id")
also pins down: a notification (no `id`) terminates the exchange with
202 Accepted and no body; a request (with `id`) yields 200 with one
event frame carrying the engine's response. -/
def handleStatelessPost (engine : JMessage → JResponse) (body : JMessage) : PostOutcome :=
  match body.id with
  | none => .accepted
  | some _ => .okFrame (engine body)

/-- HTTP status of a stateless POST outcome. -/
def outcomeStatus : PostOutcome → Nat
  | .okFrame _ => 200
  | .accepted => 202
  | .errorReply r => r.status

/-- Whether a stateless POST outcome carries a response body. -/
def outcomeHasBody : PostOutcome → Bool
  | .okFrame _ => true
  | .accepted => false
  | .errorReply _ => true

/-! ## SseServerTransport (src/unnamed/part_002)

The push-transport class.  Its mutable per-instance state is the
response handle `res : Response | null` plus whatever was written;
`onclose`/`onerror` notifications are modelled by counting/recording
emissions of the internal events that the constructor forwards to the
callbacks. -/

/-- Session-id assignment in the SseServerTransport constructor
(line 18): `req.headers['x-request-id']?.toString() ||
Math.random().toString(36).substring(2)`.  An absent header is `none`;
JavaScript `||` falls through to the random fallback on `undefined`
and on the empty string (both falsy). -/
def assignSessionId (header : Option String) (randomId : String) : String :=
  match header with
  | some h => if h = "" then randomId else h
  | none => randomId

/-- The Express response handle as `send` sees it. -/
structure SseRes where
  writableEnded : Bool
  written : List String
deriving DecidableEq, Repr

/-- State touched by `SseServerTransport.send`: the nullable response
handle and the record of `onerror` notifications. -/
structure SseSendState where
  res : Option SseRes
  errors : List String
deriving DecidableEq, Repr

/-- Whether the promise returned by `send` resolves or rejects. -/
inductive SendResult
  | resolved
  | rejected
deriving DecidableEq, Repr

/-- One Server-Sent-Events data frame for a serialized message. -/
def sseFrame (json : String) : String := "data: " ++ json ++ "\n\n"

/-- `SseServerTransport.send` (part_002 lines 58-73): if `res` is null
or already ended, emit `errorInternal` (forwarded to `onerror`) and
reject; otherwise write exactly one `data:` frame and resolve.
`JSON.stringify(message)` is external and enters as the already
serialized `json` string. -/
def sseSend (s : SseSendState) (json : String) : SseSendState × SendResult :=
  match s.res with
  | none =>
    ({ s with errors := s.errors ++ ["SSE connection not available for sending."] }, .rejected)
  | some r =>
    if r.writableEnded then
      ({ s with errors := s.errors ++ ["SSE connection not available for sending."] }, .rejected)
    else
      ({ s with res := some { r with written := r.written ++ [sseFrame json] } }, .resolved)

/-- Lifecycle state of one SseServerTransport: whether `start()` was
ever called, whether `this.res` is still non-null, and how many times
`closeInternal` (hence `onclose`) has been emitted. -/
structure SseLife where
  started : Bool
  resPresent : Bool
  oncloseCount : Nat
deriving DecidableEq, Repr

/-- State right after the constructor ran: `res` bound, nothing
emitted, `start()` not yet called. -/
def initLife : SseLife := ⟨false, true, 0⟩

/-- Lifecycle events: `start()` (lines 51-56, a log only),
a self-initiated `close()` (lines 75-82), and the request's `close`
event firing the listener registered in the constructor
(lines 40-43). -/
inductive LifeEv
  | start
  | selfClose
  | peerClose
deriving DecidableEq, Repr

/-- The transport's reaction to one lifecycle event, line by line from
part_002: `close()` emits `closeInternal` only when `this.res` is
non-null and then nulls it; the `req.on("close")` listener emits
`closeInternal` unconditionally and then nulls `this.res`; `start()`
only logs. -/
def lifeStep (s : SseLife) : LifeEv → SseLife
  | .start => { s with started := true }
  | .selfClose =>
    if s.resPresent then
      { s with resPresent := false, oncloseCount := s.oncloseCount + 1 }
    else s
  | .peerClose => { s with resPresent := false, oncloseCount := s.oncloseCount + 1 }

/-- A transport's lifecycle over a serialized event history. -/
def runLife (evs : List LifeEv) : SseLife := evs.foldl lifeStep initLife

/-! ## SSE keep-alive heartbeat (src/src/index.ts lines 248-261)

The GET /mcp handler schedules `setInterval` at 20000 ms; the callback
returns after `clearInterval` when `res.writableEnded`, else writes
one comment frame; the request's `close` listener clears the interval
and calls `transport.close()` (a no-op on `res` there, because the
transport's own `close` listener has already nulled its handle). -/

/-- The heartbeat period passed to `setInterval` (index.ts line 255). -/
def keepAliveMs : Nat := 20000

/-- The no-op comment frame written by each heartbeat. -/
def keepAliveFrame : String := ": keepalive\n\n"

/-- State of one open SSE connection: whether the interval is still
scheduled, whether the response was ended server-side, whether the
transport still holds the handle, whether the peer has disconnected,
and everything written to the stream. -/
structure SseConn where
  intervalActive : Bool
  writableEnded : Bool
  resPresent : Bool
  peerClosed : Bool
  writes : List String
deriving DecidableEq, Repr

/-- State right after the GET /mcp handler accepted the stream. -/
def initConn : SseConn := ⟨true, false, true, false, []⟩

/-- Connection events: a heartbeat timer firing, the request's
`close` event (peer disconnect), and a server-side
`transport.close()`. -/
inductive ConnEv
  | tick
  | peerClose
  | transportClose
deriving DecidableEq, Repr

/-- One event on the connection, from index.ts lines 248-261 and the
transport's close in part_002 lines 75-82: a tick on a cleared
interval does nothing; a tick on an ended channel clears the interval
without writing; otherwise it writes one keep-alive frame.  Peer
disconnect runs the transport's close listener (handle nulled) and the
handler's listener (interval cleared; the subsequent
`transport.close()` finds `res` null and does nothing).  A server-side
close ends the response while the handle is held. -/
def connStep (s : SseConn) : ConnEv → SseConn
  | .tick =>
    if !s.intervalActive then s
    else if s.writableEnded then { s with intervalActive := false }
    else { s with writes := s.writes ++ [keepAliveFrame] }
  | .peerClose => { s with resPresent := false, peerClosed := true, intervalActive := false }
  | .transportClose =>
    if s.resPresent then { s with writableEnded := true, resPresent := false } else s

/-- An SSE connection's history over a serialized event list. -/
def runConn (evs : List ConnEv) : SseConn := evs.foldl connStep initConn

/-! ## The yahrzeit tool (src/src/app.ts lines 38-69 and 161-193)

`doYahrzeit` scans Hebrew years `nowYear - 2 .. nowYear + 20` and
renders a Markdown table whose first two lines are the header rows.
The @hebcal library calls (`new HDate`, `.next()`, `getYahrzeitHD`,
`.getFullYear()`, row rendering) are external and enter as an
environment of abstract functions over opaque `HDate` handles. -/

/-- The @hebcal calendar operations `doYahrzeit` consumes, with
Hebrew dates as opaque handles. -/
structure HebcalEnv where
  hdateOf : Civil → Nat
  hdateNext : Nat → Nat
  hyearOf : Nat → Int
  getYahrzeitHD : Int → Nat → Option Nat
  renderRow : Int → Nat → String

/-- The inclusive integer range `a..b` scanned by the source's
`for (let hyear = startYear; hyear <= endYear; hyear++)` loop. -/
def yearRange (a b : Int) : List Int :=
  (List.range (b + 1 - a).toNat).map (fun i => a + i)

/-- First header row of the yahrzeit table (app.ts line 59). -/
def yahrzeitHeader1 : String :=
  "| Anniversary number | Gregorian date | Hebrew year | Hebrew day and month | Date in Hebrew letters |"

/-- Second header row of the yahrzeit table (app.ts line 60). -/
def yahrzeitHeader2 : String :=
  "| ---- | ---- | ---- | ---- | ---- |"

/-- `doYahrzeit` from app.ts lines 38-69: compute the original Hebrew
date (advanced by one day when `afterSunset`), collect the defined
anniversaries over Hebrew years `nowYear - 2 .. nowYear + 20`, and
return the two header rows followed by one rendered row per
anniversary. -/
def doYahrzeit (env : HebcalEnv) (nowYear : Int) (dt : Civil) (afterSunset : Bool) :
    List String :=
  let origHd := if afterSunset then env.hdateNext (env.hdateOf dt) else env.hdateOf dt
  let startYear := nowYear - 2
  let endYear := nowYear + 20
  let hdates := (yearRange startYear endYear).filterMap (fun hyear => env.getYahrzeitHD hyear origHd)
  yahrzeitHeader1 :: yahrzeitHeader2 :: hdates.map (fun hd => env.renderRow (env.hyearOf origHd) hd)

/-- The three possible contents of the yahrzeit tool's reply card. -/
inductive YahrzeitOutcome
  | parseError (msg : String)
  | noYahrzeit (msg : String)
  | success (text : String)
deriving DecidableEq, Repr

/-- The yahrzeit tool handler, app.ts lines 168-192: parse the date
argument (error card on a `RangeError`), run `doYahrzeit`, return the
"No yahrzeit available" card when the result list is empty, and
otherwise join the lines into the success card. -/
def yahrzeitTool (env : HebcalEnv) (nowYear : Int) (dateArg : String) (afterSunset : Bool) :
    YahrzeitOutcome :=
  match isoDateStringToDate dateArg with
  | .error _ => .parseError ("Error parsing date: " ++ dateArg)
  | .ok dt =>
    let results := doYahrzeit env nowYear dt afterSunset
    if results.length = 0 then
      .noYahrzeit ("No yahrzeit available for: " ++ dateArg ++ " in Hebrew years " ++
        toString nowYear ++ "-" ++ toString (nowYear + 3))
    else
      .success (String.intercalate "\n" results)

/-- Whether `pat` occurs as a contiguous sublist of `l` (used to state
that an error message does or does not name a verb). -/
def isSubOf (pat : List Char) : List Char → Bool
  | [] => pat.isEmpty
  | c :: rest => pat.isPrefixOf (c :: rest) || isSubOf pat rest

/-! ## Helper lemmas -/

theorem isoRegexTest_structure {l : List Char} (h : isoRegexTest l = true) :
    ∃ c0 c1 c2 c3 c5 c6 c8 c9 rest,
      l = c0 :: c1 :: c2 :: c3 :: '-' :: c5 :: c6 :: '-' :: c8 :: c9 :: rest ∧
      c0.isDigit ∧ c1.isDigit ∧ c2.isDigit ∧ c3.isDigit ∧
      c5.isDigit ∧ c6.isDigit ∧ c8.isDigit ∧ c9.isDigit := by
  rcases l with _ | ⟨c0, _ | ⟨c1, _ | ⟨c2, _ | ⟨c3, _ | ⟨c4, _ | ⟨c5, _ | ⟨c6, _ | ⟨c7, _ | ⟨c8, _ | ⟨c9, rest⟩⟩⟩⟩⟩⟩⟩⟩⟩⟩
  case nil => exact Bool.noConfusion h
  case cons.nil => exact Bool.noConfusion h
  case cons.cons.nil => exact Bool.noConfusion h
  case cons.cons.cons.nil => exact Bool.noConfusion h
  case cons.cons.cons.cons.nil => exact Bool.noConfusion h
  case cons.cons.cons.cons.cons.nil => exact Bool.noConfusion h
  case cons.cons.cons.cons.cons.cons.nil => exact Bool.noConfusion h
  case cons.cons.cons.cons.cons.cons.cons.nil => exact Bool.noConfusion h
  case cons.cons.cons.cons.cons.cons.cons.cons.nil => exact Bool.noConfusion h
  case cons.cons.cons.cons.cons.cons.cons.cons.cons.nil => exact Bool.noConfusion h
  simp only [isoRegexTest, Bool.and_eq_true, beq_iff_eq] at h
  obtain ⟨⟨⟨⟨⟨⟨⟨⟨⟨h0, h1⟩, h2⟩, h3⟩, h4⟩, h5⟩, h6⟩, h7⟩, h8⟩, h9⟩ := h
  subst h4; subst h7
  exact ⟨c0, c1, c2, c3, c5, c6, c8, c9, rest, rfl, h0, h1, h2, h3, h5, h6, h8, h9⟩

theorem leadingDigits_stops_at_dash {c0 c1 c2 c3 : Char} (rest : List Char)
    (h0 : c0.isDigit) (h1 : c1.isDigit) (h2 : c2.isDigit) (h3 : c3.isDigit) :
    leadingDigits (c0 :: c1 :: c2 :: c3 :: '-' :: rest) = [c0, c1, c2, c3] := by
  simp [leadingDigits, h0, h1, h2, h3]

/-! ## C10 -/

/-- C10: `isoDateStringToDate` throws (here: returns `.error` with the
source's RangeError message) exactly when the first ten characters of
its argument fail the pattern digit4-digit2-digit2; any string with a
matching prefix succeeds, with all trailing characters ignored (the
regex is anchored only at the start); out-of-range month or day
fields are not rejected but silently normalized by `Date` rollover
(month 13 of 2024 becomes January 2025; day 00 of January 2024
becomes 31 December 2023). -/
theorem isoDate_regex_and_rollover_spec :
    (∀ s : String, exceptOk (isoDateStringToDate s) = isoRegexTest s.data)
    ∧ (∀ s t : String, isoRegexTest s.data = true →
        isoDateStringToDate (s ++ t) = isoDateStringToDate s)
    ∧ isoDateStringToDate "2024-13-01" = .ok ⟨2025, 0, 1⟩
    ∧ isoDateStringToDate "2024-01-00" = .ok ⟨2023, 11, 31⟩ := by
  refine ⟨?_, ?_, by rfl, by rfl⟩
  · intro s
    by_cases h : isoRegexTest s.data <;> simp [isoDateStringToDate, exceptOk, h]
  · intro s t h
    obtain ⟨c0, c1, c2, c3, c5, c6, c8, c9, rest, hl, h0, h1, h2, h3, h5, h6, h8, h9⟩ :=
      isoRegexTest_structure h
    have hdata : (s ++ t).data = s.data ++ t.data := by
      simp [String.data_append]
    unfold isoDateStringToDate
    rw [hdata, hl]
    simp only [List.cons_append]
    have hT1 : isoRegexTest
        (c0 :: c1 :: c2 :: c3 :: '-' :: c5 :: c6 :: '-' :: c8 :: c9 :: (rest ++ t.data)) = true := by
      simp [isoRegexTest, h0, h1, h2, h3, h5, h6, h8, h9]
    have hT2 : isoRegexTest
        (c0 :: c1 :: c2 :: c3 :: '-' :: c5 :: c6 :: '-' :: c8 :: c9 :: rest) = true := by
      simp [isoRegexTest, h0, h1, h2, h3, h5, h6, h8, h9]
    rw [hT1, hT2]
    simp only [if_true]
    simp [jsParseInt, leadingDigits_stops_at_dash _ h0 h1 h2 h3,
      List.drop_succ_cons, List.take_succ_cons]

/-- C10 witness: a concrete matching prefix with trailing characters. -/
theorem isoDate_regex_and_rollover_spec_witness :
    isoDateStringToDate ("2024-01-15" ++ "T12:34:56Z") = isoDateStringToDate "2024-01-15" :=
  isoDate_regex_and_rollover_spec.2.1 "2024-01-15" "T12:34:56Z" (by rfl)

/-! ## C3, C4, C5, C8, C7 -/

/-- C3 counterexample: the claim fails on the code in two ways.  A PUT
to /mcp has no registered handler in either revision of server.ts
(Express falls through to its default 404, not the 405 envelope), and
in the first revision the GET handler's message is the fixed
"Method not allowed.", which does not name the rejected verb. -/
theorem mcp_verb_gate_counterexample :
    mcpRouteV2 .put = .unhandled
    ∧ mcpRouteV1 .get = .reply notAllowedGeneric
    ∧ notAllowedGeneric.body.message = "Method not allowed."
    ∧ (isSubOf "GET".data notAllowedGeneric.body.message.data) = false := by
  refine ⟨rfl, rfl, rfl, by decide⟩

/-- C3 amended: for GET and DELETE on /mcp — the only non-POST verbs
with registered handlers — both revisions respond 405 with a JSON-RPC
error envelope of code -32000 and id null; the second revision's
message names the rejected verb ("Method GET not allowed",
"Method DELETE not allowed"), the first revision's message is the
generic "Method not allowed."; all other verbs (e.g. PUT) are
unhandled and fall through to Express's default 404. -/
theorem mcp_verb_gate_amended :
    mcpRouteV2 .get = .reply ⟨405, ⟨"2.0", -32000, "Method GET not allowed", none⟩⟩
    ∧ mcpRouteV2 .delete = .reply ⟨405, ⟨"2.0", -32000, "Method DELETE not allowed", none⟩⟩
    ∧ mcpRouteV1 .get = .reply ⟨405, ⟨"2.0", -32000, "Method not allowed.", none⟩⟩
    ∧ mcpRouteV1 .delete = .reply ⟨405, ⟨"2.0", -32000, "Method not allowed.", none⟩⟩
    ∧ mcpRouteV2 .put = .unhandled ∧ mcpRouteV1 .put = .unhandled
    ∧ (isSubOf "GET".data (notAllowed "GET").body.message.data) = true
    ∧ (isSubOf "DELETE".data (notAllowed "DELETE").body.message.data) = true := by
  refine ⟨rfl, rfl, rfl, rfl, rfl, rfl, by decide, by decide⟩

/-- C4: when the POST /mcp handler's catch block runs before any
response bytes were written (headersSent false), the server responds
500 with exactly one JSON-RPC error envelope of code -32603 and id
null; when headers were already sent, no second write is attempted
(the failure is only logged). -/
theorem post_error_envelope_spec :
    postCatchResponse false = some ⟨500, ⟨"2.0", -32603, "Internal server error", none⟩⟩
    ∧ postCatchResponse true = none :=
  ⟨rfl, rfl⟩

/-- C5: a POST /mcp payload that is a JSON-RPC notification (no id
field) terminates the exchange with a 202 accepted status and an
empty body — never a JSON-RPC response body (`okFrame`) and never the
generic -32603 error path (`errorReply`). -/
theorem notification_yields_accepted (engine : JMessage → JResponse) (body : JMessage)
    (h : body.id = none) :
    handleStatelessPost engine body = .accepted
    ∧ outcomeStatus (handleStatelessPost engine body) = 202
    ∧ outcomeHasBody (handleStatelessPost engine body) = false := by
  simp [handleStatelessPost, h, outcomeStatus, outcomeHasBody]

theorem notification_yields_accepted_witness :
    handleStatelessPost (fun m => ⟨m.id, m.payload⟩) ⟨none, 7⟩ = .accepted :=
  (notification_yields_accepted (fun m => ⟨m.id, m.payload⟩) ⟨none, 7⟩ rfl).1

/-- C8: the assigned session id equals the caller-supplied
x-request-id header whenever it is present and non-empty, and is the
freshly generated random string otherwise; a present, non-empty
caller-supplied identifier is never replaced by the fallback. -/
theorem session_id_spec (h randomId : String) (hne : h ≠ "") :
    assignSessionId (some h) randomId = h
    ∧ assignSessionId none randomId = randomId
    ∧ assignSessionId (some "") randomId = randomId := by
  refine ⟨?_, rfl, rfl⟩
  simp [assignSessionId, hne]

theorem session_id_spec_witness :
    assignSessionId (some "caller-id-1") "r4nd0m" = "caller-id-1" :=
  (session_id_spec "caller-id-1" "r4nd0m" (by decide)).1

/-- C7: `SseServerTransport.send` writes the message as exactly one
"data: json-double-newline" event frame when the channel is writable; when
the response handle is absent or already ended it notifies `onerror`
and returns a rejected promise, never silently dropping the message. -/
theorem sse_send_spec (s : SseSendState) (json : String) :
    (∀ r, s.res = some r → r.writableEnded = false →
      sseSend s json =
        ({ s with res := some { r with written := r.written ++ [sseFrame json] } }, .resolved))
    ∧ (s.res = none →
      sseSend s json =
        ({ s with errors := s.errors ++ ["SSE connection not available for sending."] }, .rejected))
    ∧ (∀ r, s.res = some r → r.writableEnded = true →
      sseSend s json =
        ({ s with errors := s.errors ++ ["SSE connection not available for sending."] }, .rejected)) := by
  refine ⟨?_, ?_, ?_⟩
  · intro r hr hw; simp [sseSend, hr, hw]
  · intro hr; simp [sseSend, hr]
  · intro r hr hw; simp [sseSend, hr, hw]

theorem sse_send_spec_witness :
    sseSend ⟨some ⟨false, []⟩, []⟩ "m1" = (⟨some ⟨false, [sseFrame "m1"]⟩, []⟩, .resolved)
    ∧ sseSend ⟨none, []⟩ "m2" =
      (⟨none, ["SSE connection not available for sending."]⟩, .rejected) :=
  ⟨(sse_send_spec ⟨some ⟨false, []⟩, []⟩ "m1").1 ⟨false, []⟩ rfl rfl,
   (sse_send_spec ⟨none, []⟩ "m2").2.1 rfl⟩

/-! ## C2 -/

theorem lifeStep_selfClose_fixed {s : SseLife} (h : s.resPresent = false) :
    lifeStep s .selfClose = s := by
  simp [lifeStep, h]

theorem foldl_selfClose_fixed (n : Nat) {s : SseLife} (h : s.resPresent = false) :
    (List.replicate n LifeEv.selfClose).foldl lifeStep s = s := by
  induction n with
  | zero => rfl
  | succ k ih =>
    rw [List.replicate_succ, List.foldl_cons, lifeStep_selfClose_fixed h]
    exact ih

/-- C2 counterexample: the claim fails on the code.  A self-initiated
`close()` followed by the peer's `close` event fires `onclose` twice,
because the `req.on("close")` listener registered in the constructor
emits `closeInternal` unconditionally; and a transport whose `start()`
was never called still fires `onclose` on peer disconnect, because
`start()` only logs and the listener is installed by the
constructor. -/
theorem sse_onclose_counterexample :
    (runLife [.start, .selfClose, .peerClose]).oncloseCount = 2
    ∧ (runLife [.peerClose]).started = false
    ∧ (runLife [.peerClose]).oncloseCount = 1 :=
  ⟨rfl, rfl, rfl⟩

/-- C2 amended: `close()` invoked N ≥ 1 times with no peer-close event
triggers `onclose` exactly once, and a peer disconnect followed by any
number of `close()` calls triggers it exactly once; but each peer
`close` event re-emits unconditionally, so a self-initiated `close()`
followed by the peer's `close` event fires `onclose` twice, and
`onclose` can fire for a transport that was never started. -/
theorem sse_onclose_amended (n : Nat) (hn : 1 ≤ n) :
    (runLife (.start :: List.replicate n .selfClose)).oncloseCount = 1
    ∧ (runLife (.start :: .peerClose :: List.replicate n .selfClose)).oncloseCount = 1 := by
  obtain ⟨k, rfl⟩ : ∃ k, n = 1 + k := ⟨n - 1, by omega⟩
  constructor
  · show ((List.replicate (1 + k) LifeEv.selfClose).foldl lifeStep
      (lifeStep initLife .start)).oncloseCount = 1
    rw [Nat.add_comm 1 k, List.replicate_succ, List.foldl_cons]
    have h2 : (lifeStep (lifeStep initLife .start) .selfClose).resPresent = false := rfl
    rw [foldl_selfClose_fixed k h2]; rfl
  · show ((List.replicate (1 + k) LifeEv.selfClose).foldl lifeStep
      (lifeStep (lifeStep initLife .start) .peerClose)).oncloseCount = 1
    have h2 : (lifeStep (lifeStep initLife .start) .peerClose).resPresent = false := rfl
    rw [foldl_selfClose_fixed (1 + k) h2]; rfl

theorem sse_onclose_amended_witness :
    (runLife (.start :: List.replicate 3 .selfClose)).oncloseCount = 1
    ∧ (runLife (.start :: .peerClose :: List.replicate 3 .selfClose)).oncloseCount = 1 :=
  sse_onclose_amended 3 (by decide)

/-! ## C6 -/

theorem connStep_preserves_inv (s : SseConn) (ev : ConnEv)
    (h : s.peerClosed = true → s.intervalActive = false) :
    (connStep s ev).peerClosed = true → (connStep s ev).intervalActive = false := by
  cases ev <;> simp only [connStep]
  case tick => split_ifs <;> simp_all
  case peerClose => simp
  case transportClose => split_ifs <;> simp_all

theorem foldl_conn_inv (evs : List ConnEv) :
    ∀ s : SseConn, (s.peerClosed = true → s.intervalActive = false) →
      ((evs.foldl connStep s).peerClosed = true → (evs.foldl connStep s).intervalActive = false) := by
  induction evs with
  | nil => intro s h; exact h
  | cons e rest ih => intro s h; exact ih _ (connStep_preserves_inv s e h)

theorem runConn_inv (evs : List ConnEv) :
    (runConn evs).peerClosed = true → (runConn evs).intervalActive = false :=
  foldl_conn_inv evs initConn (fun h => by exact absurd h (by decide))

/-- C6: the heartbeat writes the no-op comment frame ": keepalive"
(with the double newline) on a fixed 20000 ms interval while the
channel is writable; a heartbeat firing on an already-ended channel
cancels the interval without writing; and from any reachable state in
which the peer has disconnected or the response has ended, no further
event ever writes to the channel. -/
theorem keepalive_heartbeat_spec :
    keepAliveMs = 20000
    ∧ (∀ s : SseConn, s.intervalActive = true → s.writableEnded = false →
        connStep s .tick = { s with writes := s.writes ++ [keepAliveFrame] })
    ∧ (∀ s : SseConn, s.intervalActive = true → s.writableEnded = true →
        connStep s .tick = { s with intervalActive := false })
    ∧ (∀ (evs : List ConnEv) (ev : ConnEv),
        (runConn evs).peerClosed = true ∨ (runConn evs).writableEnded = true →
        (runConn (evs ++ [ev])).writes = (runConn evs).writes) := by
  refine ⟨rfl, ?_, ?_, ?_⟩
  · intro s ha hw; simp [connStep, ha, hw]
  · intro s ha hw; simp [connStep, ha, hw]
  · intro evs ev h
    have hstep : runConn (evs ++ [ev]) = connStep (runConn evs) ev := by
      simp [runConn, List.foldl_append]
    rw [hstep]
    rcases h with hpc | hwe
    · have hact := runConn_inv evs hpc
      cases ev
      case tick => simp [connStep, hact]
      case peerClose => simp [connStep]
      case transportClose => simp only [connStep]; split_ifs <;> rfl
    · cases ev
      case tick => simp only [connStep]; split_ifs <;> simp_all
      case peerClose => simp [connStep]
      case transportClose => simp only [connStep]; split_ifs <;> rfl

theorem keepalive_heartbeat_spec_witness :
    connStep initConn .tick = { initConn with writes := [keepAliveFrame] }
    ∧ (runConn ([ConnEv.peerClose] ++ [ConnEv.tick])).writes = (runConn [ConnEv.peerClose]).writes :=
  ⟨by simpa using keepalive_heartbeat_spec.2.1 initConn rfl rfl,
   keepalive_heartbeat_spec.2.2.2 [ConnEv.peerClose] .tick (Or.inl rfl)⟩

/-! ## C1 -/

theorem runPair_eq (engine : JMessage → JResponse) (sched : List Bool) :
    ∀ p : ExchangeState × ExchangeState,
      runPair engine sched p =
        ((exStep engine)^[sched.count true] p.1, (exStep engine)^[sched.count false] p.2) := by
  induction sched with
  | nil => intro p; simp [runPair]
  | cons b rest ih =>
    intro p
    cases b
    · show runPair engine rest (p.1, exStep engine p.2) = _
      rw [ih]
      simp [List.count_cons, Function.iterate_succ_apply]
    · show runPair engine rest (exStep engine p.1, p.2) = _
      rw [ih]
      simp [List.count_cons, Function.iterate_succ_apply]

theorem runAlone_done (engine : JMessage → JResponse) (r : JMessage) (n : Nat) (hn : 3 ≤ n) :
    runAlone engine n r = ⟨r, .done, some (engine r)⟩ := by
  obtain ⟨k, rfl⟩ : ∃ k, n = k + 3 := ⟨n - 3, by omega⟩
  rw [runAlone, Function.iterate_add_apply]
  have h3 : (exStep engine)^[3] (initEx r) = ⟨r, .done, some (engine r)⟩ := rfl
  rw [h3]
  exact Function.iterate_fixed rfl k

/-- C1: two concurrently in-flight POST /mcp exchanges with their own
fresh per-request transports share no per-exchange mutable state:
under every interleaving schedule that lets each exchange finish, each
exchange's final state equals its solo run (so its response is
unchanged by the presence or content of the other exchange), and —
given that the shared read-only engine echoes request ids, the
JSON-RPC discipline of the external Message Engine — each response
carries the id of its own request. -/
theorem stateless_no_crosstalk (engine : JMessage → JResponse)
    (hEcho : ∀ m : JMessage, (engine m).id = m.id)
    (r1 r2 : JMessage) (sched : List Bool)
    (h1 : 3 ≤ sched.count true) (h2 : 3 ≤ sched.count false) :
    (runPair engine sched (initEx r1, initEx r2)).1 = runAlone engine (sched.count true) r1
    ∧ (runPair engine sched (initEx r1, initEx r2)).2 = runAlone engine (sched.count false) r2
    ∧ (runPair engine sched (initEx r1, initEx r2)).1.out = some ⟨r1.id, (engine r1).result⟩
    ∧ (runPair engine sched (initEx r1, initEx r2)).2.out = some ⟨r2.id, (engine r2).result⟩ := by
  have hp := runPair_eq engine sched (initEx r1, initEx r2)
  have e1 : (engine r1) = ⟨r1.id, (engine r1).result⟩ := by
    have := hEcho r1
    cases hres : engine r1
    simp_all
  have e2 : (engine r2) = ⟨r2.id, (engine r2).result⟩ := by
    have := hEcho r2
    cases hres : engine r2
    simp_all
  refine ⟨?_, ?_, ?_, ?_⟩
  · rw [hp]; rfl
  · rw [hp]; rfl
  · rw [hp]
    show ((exStep engine)^[sched.count true] (initEx r1)).out = _
    rw [show (exStep engine)^[sched.count true] (initEx r1) = runAlone engine (sched.count true) r1 from rfl,
      runAlone_done engine r1 _ h1]
    rw [← e1]
  · rw [hp]
    show ((exStep engine)^[sched.count false] (initEx r2)).out = _
    rw [show (exStep engine)^[sched.count false] (initEx r2) = runAlone engine (sched.count false) r2 from rfl,
      runAlone_done engine r2 _ h2]
    rw [← e2]

theorem stateless_no_crosstalk_witness :
    (runPair (fun m => ⟨m.id, m.payload + 1⟩) [true, false, true, false, true, false]
      (initEx ⟨some 1, 10⟩, initEx ⟨some 2, 20⟩)).1.out = some ⟨some 1, 11⟩
    ∧ (runPair (fun m => ⟨m.id, m.payload + 1⟩) [true, false, true, false, true, false]
      (initEx ⟨some 1, 10⟩, initEx ⟨some 2, 20⟩)).2.out = some ⟨some 2, 21⟩ :=
  ⟨(stateless_no_crosstalk (fun m => ⟨m.id, m.payload + 1⟩) (fun m => rfl)
      ⟨some 1, 10⟩ ⟨some 2, 20⟩ [true, false, true, false, true, false]
      (by decide) (by decide)).2.2.1,
   (stateless_no_crosstalk (fun m => ⟨m.id, m.payload + 1⟩) (fun m => rfl)
      ⟨some 1, 10⟩ ⟨some 2, 20⟩ [true, false, true, false, true, false]
      (by decide) (by decide)).2.2.2⟩

/-! ## C9 -/

/-- C9: `doYahrzeit` always returns at least the two Markdown header
rows, for every environment, date and afterSunset flag — even when no
anniversary is defined in any scanned Hebrew year — so the yahrzeit
tool's `results.length === 0` guard is never satisfied and its
"No yahrzeit available" error branch is unreachable. -/
theorem yahrzeit_guard_unreachable :
    (∀ (env : HebcalEnv) (nowYear : Int) (dt : Civil) (afterSunset : Bool),
      2 ≤ (doYahrzeit env nowYear dt afterSunset).length)
    ∧ (∀ (env : HebcalEnv) (nowYear : Int) (dateArg : String) (afterSunset : Bool) (msg : String),
      yahrzeitTool env nowYear dateArg afterSunset ≠ .noYahrzeit msg) := by
  constructor
  · intro env nowYear dt afterSunset
    simp [doYahrzeit]
  · intro env nowYear dateArg afterSunset msg
    unfold yahrzeitTool
    cases hp : isoDateStringToDate dateArg with
    | error e => simp
    | ok dt =>
      have hlen : (doYahrzeit env nowYear dt afterSunset).length ≠ 0 := by
        simp [doYahrzeit]
      simp [hlen]
